import Mathlib

/-!
# Verification of the Secure CAD Executor (src/src/tools/secure_cad_executor.py)

A shallow embedding of the `SecureCADExecutor` tool.  Pure code
(`_prepare_code`, `_get_created_files`) is translated to Lean functions;
the orchestration method `_run` is translated to explicit state passing
over an oracle (`DockerEnv`) describing the behaviour of the Docker
daemon and the host filesystem during one call.  Exceptions are
modelled with `Except String`.
-/

namespace CadAgent

/-! ## Host filesystem model -/

/-- A file on the host, given by its path components relative to one of the
two output directories (length 1 = a top-level file of that directory) and
its byte size.  Components never contain a path separator. -/
structure HostFile where
  relPath : List String
  size : Nat
deriving Repr, DecidableEq

/-- The name (last path component) of a host file. -/
def HostFile.name (f : HostFile) : String := f.relPath.getLastD ""

/-- One of the two host output directories: its path string and the files
currently inside it (at any depth). -/
structure HostDir where
  path : String
  files : List HostFile
deriving Repr, DecidableEq

/-- Holds exactly for the files sitting directly in the directory,
not in a subdirectory. -/
def HostFile.topLevel (f : HostFile) : Bool := f.relPath.length == 1

/-- Models Python's `str.endswith` (string suffix test), implemented
over the character lists so that proofs can evaluate it. -/
def strEndsWith (s post : String) : Bool :=
  post.data.isSuffixOf s.data

/-- Models `fnmatch` for the patterns this tool uses, which all have the
shape `*.<ext>`: the name must end with the literal suffix after `*`
(`*` may match the empty string, and `pathlib`'s glob also matches
names starting with a dot). -/
def globMatch (pattern name : String) : Bool :=
  strEndsWith name (pattern.drop 1)

/-- Models `directory.glob(pattern)` restricted to regular files
(`file_path.is_file()`): `Path.glob` with a pattern containing no `/` or
`**` only inspects the top level of the directory. -/
def glob (d : HostDir) (pattern : String) : List HostFile :=
  d.files.filter fun f =>
    match f.relPath with
    | [n] => globMatch pattern n
    | _ => false

/-- Models `pathlib.PurePath.suffix`: the extension of the name from its
final dot (`name[i:]` for `i` the index of the last dot when
`0 < i < len(name) - 1`, else the empty string).  Computed on the
reversed character list: `post` is the run of characters after the last
dot; no dot at all, a name ending in its last dot, or a name starting
with its only dot give the empty suffix. -/
def pathSuffix (name : String) : String :=
  let rev := name.data.reverse
  let post := rev.takeWhile (fun ch => ch != '.')
  if post.length = rev.length ∨ post.length = 0
      ∨ rev.length = post.length + 1 then ""
  else String.mk ('.' :: post.reverse)

/-- Descriptor of a produced file, `{"name", "path", "type", "size"}`
(lines 265-270 of `secure_cad_executor.py`). -/
structure FileDescriptor where
  name : String
  path : String
  type : String
  size : Nat
deriving Repr, DecidableEq

/-- The fixed glob patterns of `_get_created_files` and of the listing
loop inside the generated script (lines 239 and 260). -/
def patterns : List String := ["*.step", "*.stp", "*.stl", "*.brep", "*.py"]

/-- Has one of the five recognized extensions of `patterns`. -/
def hasRecognizedExt (n : String) : Bool :=
  strEndsWith n ".step" || strEndsWith n ".stp" || strEndsWith n ".stl"
    || strEndsWith n ".brep" || strEndsWith n ".py"

/-- Embeds `SecureCADExecutor._get_created_files` (lines 256-272): for each
pattern, for each of the two directories, glob the directory and collect
a descriptor per matching file.  The two directories always exist (they
are created by the model validator at lines 59-60), so the
`directory.exists()` guard is always true. -/
def get_created_files (output_dir cad_dir : HostDir) : List FileDescriptor :=
  (patterns.map fun pattern =>
    ([output_dir, cad_dir].map fun directory =>
      (glob directory pattern).map fun f =>
        { name := f.name
          path := directory.path ++ "/" ++ f.name
          type := pathSuffix f.name
          size := f.size : FileDescriptor }).flatten).flatten

/-! ## Code preparation -/

/-- The fixed preamble lines (`imports`, lines 191-224 of
`secure_cad_executor.py`), verbatim. -/
def imports : List String :=
  [ "import sys",
    "import os",
    "import traceback",
    "from pathlib import Path",
    "",
    "# CAD imports with error handling",
    "try:",
    "    from build123d import *",
    "    BUILD123D_AVAILABLE = True",
    "    print('Build123D imported successfully')",
    "except ImportError as e:",
    "    BUILD123D_AVAILABLE = False",
    "    print(f'Warning: Build123D not available: \x7be\x7d')",
    "",
    "# Additional imports",
    "import numpy as np",
    "",
    "# Setup output directories",
    "output_dir = Path('/app/outputs/generated_code')",
    "cad_dir = Path('/app/outputs/cad_files')",
    "step_dir = cad_dir / 'step'",
    "stl_dir = cad_dir / 'stl'",
    "",
    "output_dir.mkdir(parents=True, exist_ok=True)",
    "cad_dir.mkdir(parents=True, exist_ok=True)",
    "step_dir.mkdir(parents=True, exist_ok=True)",
    "stl_dir.mkdir(parents=True, exist_ok=True)",
    "",
    "# User code:",
    "print('=' * 50)",
    "print('Executing CAD code...')",
    "print('=' * 50)" ]

/-- Splits a character list at each newline; like Python's
`str.split('\n')`, the result always has at least one segment (the empty
text yields one empty segment).  Structural recursion so that proofs can
evaluate it. -/
def splitLinesAux : List Char → List (List Char)
  | [] => [[]]
  | ch :: rest =>
    match splitLinesAux rest with
    | [] => [[ch]]
    | l :: ls => if ch = '\n' then [] :: l :: ls else (ch :: l) :: ls

/-- Models Python's `user_code.split('\n')` at line 231. -/
def splitLines (s : String) : List String :=
  (splitLinesAux s.data).map fun l => String.mk l

/-- The `wrapped_code` list built at lines 227-252: `try:`, every line of
the user's code indented by four spaces, then the fixed epilogue with the
`except` handler that prints the error, prints the traceback and exits
with status 1.  (The byte sequences around the status markers reproduce
the source file's literal characters.) -/
def wrapped_code (user_code : String) : List String :=
  ["try:"]
  ++ (splitLines user_code).map (fun line => "    " ++ line)
  ++ [ "",
       "    print('âœ… CAD code executed successfully')",
       "    ",
       "    # List generated files",
       "    for pattern in ['*.step', '*.stp', '*.stl', '*.brep', '*.py']:",
       "        for file_path in output_dir.glob(pattern):",
       "            if file_path.is_file():",
       "                print(f'ðŸ“ Generated: \x7bfile_path.name\x7d')",
       "                ",
       "except Exception as e:",
       "    print(f'âŒ Error in CAD code: \x7be\x7d')",
       "    traceback.print_exc()",
       "    sys.exit(1)",
       "",
       "print('=' * 50)",
       "print('CAD execution completed')",
       "print('=' * 50)" ]

/-- Embeds `SecureCADExecutor._prepare_code` (lines 189-254):
`'\n'.join(imports) + '\n' + '\n'.join(wrapped_code)`. -/
def prepare_code (user_code : String) : String :=
  String.intercalate "\n" imports ++ "\n"
    ++ String.intercalate "\n" (wrapped_code user_code)

/-! ## The tool and the Docker world -/

/-- The pydantic fields of `SecureCADExecutor` with their defaults
(lines 47-50); the two directory fields are kept as path strings, their
contents live in `DockerEnv`. -/
structure SecureCADExecutor where
  container_name : String := "cad-agent-executor"
  image_name : String := "cad-agent-executor:latest"
  output_dir : String := "outputs/generated_code"
  cad_dir : String := "outputs/cad_files"
deriving Repr, DecidableEq

/-- The build-definition path
`Path(__file__).parent.parent.parent / "Dockerfile.cad_executor"`
(line 83): `Dockerfile.cad_executor` at the project root. -/
def dockerfile_path : String := "Dockerfile.cad_executor"

/-- Outcome of `container.wait(timeout=60)` (line 152): the timeout
(surfacing as the `docker.errors.APIError` caught at line 153), normal
completion with the container's `StatusCode` (a non-negative process
exit status), or some other exception. -/
inductive WaitOutcome where
  | timeout
  | done (statusCode : Nat)
  | err (msg : String)
deriving Repr, DecidableEq

/-- Oracle fixing the behaviour of the Docker daemon and the state of
the host filesystem during one `_run` call: whether the image is
present, whether the Dockerfile exists, whether each daemon call
succeeds (with the exception message when it does not), the wait
outcome, the container logs, and the files present in the two output
directories at scan time. -/
structure DockerEnv where
  imagePresent : Bool
  dockerfilePresent : Bool
  buildOk : Bool
  buildErr : String
  createOk : Bool
  createErr : String
  putOk : Bool
  putErr : String
  startOk : Bool
  startErr : String
  waitOutcome : WaitOutcome
  logs : String
  outputFiles : List HostFile
  cadFiles : List HostFile
deriving Repr, DecidableEq

/-- The keyword arguments of `containers.create` (lines 129-142). -/
structure ContainerConfig where
  image : String
  name : String
  working_dir : String
  command : List String
  volumes : List (String × String × String)
  mem_limit : String
  cpu_quota : Nat
  network_mode : String
  remove : Bool
deriving Repr, DecidableEq

/-- The configuration `_run` passes to `containers.create`: fixed
restrictions (512m memory, cpu_quota 50000 = 50% of one core, no
network) and the two output directories bind-mounted read-write. -/
def containerConfig (tool : SecureCADExecutor) : ContainerConfig :=
  { image := tool.image_name
    name := tool.container_name
    working_dir := "/app"
    command := ["python", "cad_code.py"]
    volumes := [ (tool.output_dir, "/app/outputs/generated_code", "rw"),
                 (tool.cad_dir, "/app/outputs/cad_files", "rw") ]
    mem_limit := "512m"
    cpu_quota := 50000
    network_mode := "none"
    remove := true }

/-- Docker-side state threaded through a call: whether a container with
the tool's fixed name currently exists, and the configuration of every
`containers.create` call attempted so far (the trace lets us speak about
what the tool asked the daemon to create). -/
structure DockerState where
  containerExists : Bool
  createdConfigs : List ContainerConfig
deriving Repr, DecidableEq

/-- Embeds `SecureCADExecutor._cleanup_container` (lines 274-283): get the
fixed-name container, stop and remove it; `docker.errors.NotFound` (the
container is absent) and any other exception are swallowed, so the call
never raises.  With stop/remove modelled as succeeding, the fixed-name
slot is simply emptied. -/
def cleanup_container (s : DockerState) : DockerState :=
  { s with containerExists := false }

/-- Embeds `SecureCADExecutor._build_image_if_needed` (lines 77-93):
`images.get` succeeds when the image is present; otherwise, on
`ImageNotFound`, a missing Dockerfile raises
`FileNotFoundError(f"Dockerfile not found at ...")`, else the image is
built (raising when the build fails). -/
def build_image_if_needed (env : DockerEnv) : Except String Unit :=
  if env.imagePresent then .ok ()
  else if !env.dockerfilePresent then
    .error ("Dockerfile not found at " ++ dockerfile_path)
  else if env.buildOk then .ok ()
  else .error env.buildErr

/-- Embeds `containers.create` (lines 129-142): the attempt is recorded in
the trace; the daemon rejects the call with a 409 conflict when a
container of that name already exists, and can fail for other reasons
(`env.createOk = false`); on success a container of the fixed name now
exists. -/
def createContainer (tool : SecureCADExecutor) (env : DockerEnv)
    (s : DockerState) : Except String Unit × DockerState :=
  let s1 : DockerState :=
    { s with createdConfigs := s.createdConfigs ++ [containerConfig tool] }
  if s1.containerExists then
    (.error ("409 Client Error: Conflict, the container name "
        ++ tool.container_name ++ " is already in use"), s1)
  else if env.createOk then (.ok (), { s1 with containerExists := true })
  else (.error env.createErr, s1)

/-- The result record every `_run` call returns: fixed shape
`{success, output, error, files_created, return_code}` (§3 and §6 of the
spec; lines 156-185 of the source). -/
structure ExecResult where
  success : Bool
  output : String
  error : Option String
  files_created : List FileDescriptor
  return_code : Int
deriving Repr, DecidableEq

/-- The `try:` body of `SecureCADExecutor._run` (lines 105-176): build
the image if needed, prepare the code, write it to a temp file and tar
it (pure in the model), remove any existing container, create the
container, copy the archive in, start it, and wait.  On timeout the
container is stopped and removed and the timeout record is returned; on
completion the logs and the scan of the two output directories fill the
result record.  `.error` propagates an exception to `_run`'s handler. -/
def run_body (tool : SecureCADExecutor) (code : String) (env : DockerEnv)
    (s0 : DockerState) : Except String ExecResult × DockerState :=
  match build_image_if_needed env with
  | .error msg => (.error msg, s0)
  | .ok () =>
    let _full_code := prepare_code code
    let s1 := cleanup_container s0
    match createContainer tool env s1 with
    | (.error msg, s2) => (.error msg, s2)
    | (.ok (), s2) =>
      if env.putOk = false then (.error env.putErr, s2)
      else if env.startOk = false then (.error env.startErr, s2)
      else
        match env.waitOutcome with
        | .timeout =>
          let s3 : DockerState := { s2 with containerExists := false }
          (.ok { success := false, output := "",
                 error := some "Execution timed out",
                 files_created := [], return_code := -1 }, s3)
        | .err msg => (.error msg, s2)
        | .done sc =>
          (.ok { success := sc == 0
                 output := env.logs
                 error := if sc == 0 then none
                          else some ("Exit code: " ++ toString sc)
                 files_created :=
                   get_created_files ⟨tool.output_dir, env.outputFiles⟩
                     ⟨tool.cad_dir, env.cadFiles⟩
                 return_code := (sc : Int) }, s2)

/-- Embeds `SecureCADExecutor._run` (lines 95-187): run the body; any exception
is caught by the `except` clause at line 178 and normalized into the
failure record; the `finally` clause at line 186 runs
`_cleanup_container` on every exit path.  A call starts with an empty
creation trace and a possibly pre-existing fixed-name container. -/
def run (tool : SecureCADExecutor) (code : String) (env : DockerEnv)
    (preExisting : Bool) : ExecResult × DockerState :=
  let s0 : DockerState := { containerExists := preExisting, createdConfigs := [] }
  match run_body tool code env s0 with
  | (.ok res, s) => (res, cleanup_container s)
  | (.error msg, s) =>
    ({ success := false, output := "",
       error := some ("Failed to execute CAD code: " ++ msg),
       files_created := [], return_code := -1 }, cleanup_container s)

/-! ## Result shapes and sample oracles -/

/-- The record built by the `except` handler at lines 178-185. -/
def failureRecord (m : String) : ExecResult :=
  { success := false, output := "",
    error := some ("Failed to execute CAD code: " ++ m),
    files_created := [], return_code := -1 }

/-- The record built on the timeout path, lines 156-162. -/
def timeoutRecord : ExecResult :=
  { success := false, output := "", error := some "Execution timed out",
    files_created := [], return_code := -1 }

/-- The record built on normal completion, lines 170-176. -/
def doneRecord (sc : Nat) (logs : String) (files : List FileDescriptor) :
    ExecResult :=
  { success := sc == 0, output := logs,
    error := if sc == 0 then none else some ("Exit code: " ++ toString sc),
    files_created := files, return_code := (sc : Int) }

/-- A tool with the default pydantic field values. -/
def tool0 : SecureCADExecutor := {}

/-- An oracle where everything succeeds and the container exits with
status `sc` on empty output directories. -/
def envDone (sc : Nat) : DockerEnv :=
  { imagePresent := true, dockerfilePresent := true, buildOk := true,
    buildErr := "", createOk := true, createErr := "", putOk := true,
    putErr := "", startOk := true, startErr := "", waitOutcome := .done sc,
    logs := "", outputFiles := [], cadFiles := [] }

/-- An oracle where everything succeeds but the wait times out. -/
def envTimeout : DockerEnv := { envDone 0 with waitOutcome := .timeout }

/-- An oracle where the image and the Dockerfile are both missing. -/
def envNoDockerfile : DockerEnv :=
  { envDone 0 with imagePresent := false, dockerfilePresent := false }

/-- An oracle where everything succeeds, the container exits with status
0, and the output directories hold a few files: a script, a top-level
STEP file, a STEP file inside the `step/` subdirectory, and a file with
an unrecognized extension. -/
def envFiles : DockerEnv :=
  { envDone 0 with
      outputFiles := [⟨["part.py"], 3⟩],
      cadFiles := [⟨["part.step"], 10⟩, ⟨["step", "inner.step"], 4⟩,
        ⟨["notes.txt"], 1⟩] }

/-- A sample CAD output directory with a top-level STEP file and one in
the `step/` subdirectory. -/
def dirSample : HostDir :=
  ⟨"outputs/cad_files", [⟨["part.step"], 10⟩, ⟨["step", "inner.step"], 4⟩]⟩

/-- A sample empty code output directory. -/
def dirEmpty : HostDir := ⟨"outputs/generated_code", []⟩

/-! ## Helper lemmas -/

lemma append_ne_empty_left (a b : String) (h : a ≠ "") : a ++ b ≠ "" := by
  intro he
  apply h
  have hd : a.data ++ b.data = ([] : List Char) := congrArg String.data he
  have ha : a.data = [] := (List.append_eq_nil.mp hd).1
  cases a
  simp_all

/-- Every `_run` call returns one of the three record shapes: the
normalized failure record, the timeout record, or the completion
record. -/
lemma run_shape (tool : SecureCADExecutor) (code : String) (env : DockerEnv)
    (pre : Bool) :
    (∃ m, (run tool code env pre).1 = failureRecord m) ∨
    (run tool code env pre).1 = timeoutRecord ∨
    (∃ sc, (run tool code env pre).1 = doneRecord sc env.logs
      (get_created_files ⟨tool.output_dir, env.outputFiles⟩
        ⟨tool.cad_dir, env.cadFiles⟩)) := by
  obtain ⟨ip, dp, bo, be, co, ce, po, pe, sok, se, w, lg, ofs, cfs⟩ := env
  cases ip <;> cases dp <;> cases bo <;> cases co <;> cases po <;>
    cases sok <;> cases w <;>
    first
      | exact Or.inl ⟨_, rfl⟩
      | exact Or.inr (Or.inl rfl)
      | exact Or.inr (Or.inr ⟨_, rfl⟩)

/-- The creation trace of a call is empty (creation never attempted) or
a single attempt with the tool's fixed configuration. -/
lemma run_trace (tool : SecureCADExecutor) (code : String) (env : DockerEnv)
    (pre : Bool) :
    ((run tool code env pre).2).createdConfigs = [] ∨
    ((run tool code env pre).2).createdConfigs = [containerConfig tool] := by
  obtain ⟨ip, dp, bo, be, co, ce, po, pe, sok, se, w, lg, ofs, cfs⟩ := env
  cases ip <;> cases dp <;> cases bo <;> cases co <;> cases po <;>
    cases sok <;> cases w <;>
    first
      | exact Or.inl rfl
      | exact Or.inr rfl

/-- After any call no container with the fixed name remains. -/
lemma run_container_final (tool : SecureCADExecutor) (code : String)
    (env : DockerEnv) (pre : Bool) :
    ((run tool code env pre).2).containerExists = false := by
  obtain ⟨ip, dp, bo, be, co, ce, po, pe, sok, se, w, lg, ofs, cfs⟩ := env
  cases ip <;> cases dp <;> cases bo <;> cases co <;> cases po <;>
    cases sok <;> cases w <;> rfl

/-- A call behaves the same whether or not a container of the fixed name
pre-existed: the cleanup at line 126 runs before creation. -/
lemma run_pre_irrelevant (tool : SecureCADExecutor) (code : String)
    (env : DockerEnv) (pre : Bool) :
    run tool code env pre = run tool code env false := by
  obtain ⟨ip, dp, bo, be, co, ce, po, pe, sok, se, w, lg, ofs, cfs⟩ := env
  cases ip <;> cases dp <;> cases bo <;> cases co <;> cases po <;>
    cases sok <;> cases w <;> rfl

/-- On a completed wait, the call returns the completion record and the
final docker state is clean with one creation. -/
lemma run_done (tool : SecureCADExecutor) (code : String) (env : DockerEnv)
    (pre : Bool) (sc : Nat)
    (hbuild : build_image_if_needed env = .ok ())
    (hcreate : env.createOk = true) (hput : env.putOk = true)
    (hstart : env.startOk = true) (hwait : env.waitOutcome = .done sc) :
    (run tool code env pre).1 = doneRecord sc env.logs
      (get_created_files ⟨tool.output_dir, env.outputFiles⟩
        ⟨tool.cad_dir, env.cadFiles⟩) ∧
    (run tool code env pre).2 = ⟨false, [containerConfig tool]⟩ := by
  obtain ⟨ip, dp, bo, be, co, ce, po, pe, sok, se, w, lg, ofs, cfs⟩ := env
  subst hwait
  subst hcreate
  subst hput
  subst hstart
  cases ip
  · cases dp
    · simp [build_image_if_needed] at hbuild
    · cases bo
      · simp [build_image_if_needed] at hbuild
      · exact ⟨rfl, rfl⟩
  · exact ⟨rfl, rfl⟩

/-- On a timed-out wait, the call returns the timeout record; the
timeout branch itself already removed the container (before the
`finally`), and the final docker state is clean with one creation. -/
lemma run_timed_out (tool : SecureCADExecutor) (code : String)
    (env : DockerEnv) (pre : Bool)
    (hbuild : build_image_if_needed env = .ok ())
    (hcreate : env.createOk = true) (hput : env.putOk = true)
    (hstart : env.startOk = true) (hwait : env.waitOutcome = .timeout) :
    (run tool code env pre).1 = timeoutRecord ∧
    ((run_body tool code env ⟨pre, []⟩).2).containerExists = false ∧
    (run tool code env pre).2 = ⟨false, [containerConfig tool]⟩ := by
  obtain ⟨ip, dp, bo, be, co, ce, po, pe, sok, se, w, lg, ofs, cfs⟩ := env
  subst hwait
  subst hcreate
  subst hput
  subst hstart
  cases ip
  · cases dp
    · simp [build_image_if_needed] at hbuild
    · cases bo
      · simp [build_image_if_needed] at hbuild
      · exact ⟨rfl, rfl, rfl⟩
  · exact ⟨rfl, rfl, rfl⟩

@[simp] lemma drop_star_step : ("*.step" : String).drop 1 = ".step" := rfl

@[simp] lemma drop_star_stp : ("*.stp" : String).drop 1 = ".stp" := rfl

@[simp] lemma drop_star_stl : ("*.stl" : String).drop 1 = ".stl" := rfl

@[simp] lemma drop_star_brep : ("*.brep" : String).drop 1 = ".brep" := rfl

@[simp] lemma drop_star_py : ("*.py" : String).drop 1 = ".py" := rfl

lemma hasRecognizedExt_iff (n : String) :
    hasRecognizedExt n = true ↔ ∃ p ∈ patterns, globMatch p n = true := by
  simp [hasRecognizedExt, patterns, globMatch, or_assoc]

lemma glob_pred_iff (p : String) (l : List String) :
    (match l with | [n] => globMatch p n | _ => false) = true ↔
      ∃ n, l = [n] ∧ globMatch p n = true := by
  rcases l with _ | ⟨n, _ | ⟨m, r⟩⟩ <;> simp

lemma mem_glob {dir : HostDir} {p : String} {f : HostFile} :
    f ∈ glob dir p ↔
      f ∈ dir.files ∧ ∃ n, f.relPath = [n] ∧ globMatch p n = true := by
  simp [glob, List.mem_filter, glob_pred_iff]

lemma mem_get_created_files {o c : HostDir} {d : FileDescriptor} :
    d ∈ get_created_files o c ↔
      ∃ p ∈ patterns, ∃ dir ∈ [o, c], ∃ f ∈ glob dir p,
        d = ⟨f.name, dir.path ++ "/" ++ f.name, pathSuffix f.name, f.size⟩ := by
  simp only [get_created_files, List.mem_flatten, List.mem_map, List.map_cons,
    List.map_nil, List.flatten_cons, List.flatten_nil, List.mem_append,
    List.append_nil, List.mem_cons, List.not_mem_nil, or_false, exists_eq_left,
    exists_eq_left', exists_eq_or_imp, exists_exists_and_eq_and]
  constructor
  · rintro ⟨p, hp, ⟨f, hf, rfl⟩ | ⟨f, hf, rfl⟩⟩
    · exact ⟨p, hp, Or.inl ⟨f, hf, rfl⟩⟩
    · exact ⟨p, hp, Or.inr ⟨f, hf, rfl⟩⟩
  · rintro ⟨p, hp, ⟨f, hf, rfl⟩ | ⟨f, hf, rfl⟩⟩
    · exact ⟨p, hp, Or.inl ⟨f, hf, rfl⟩⟩
    · exact ⟨p, hp, Or.inr ⟨f, hf, rfl⟩⟩

/-- Characterization of the names listed by `_get_created_files`: exactly
the names of top-level files of either directory carrying one of the
five recognized extensions. -/
lemma name_mem_created_files (o c : HostDir) (n : String) :
    (∃ d ∈ get_created_files o c, d.name = n) ↔
      hasRecognizedExt n = true ∧
        ((∃ f ∈ o.files, f.relPath = [n]) ∨ (∃ f ∈ c.files, f.relPath = [n])) := by
  constructor
  · rintro ⟨d, hd, hname⟩
    rw [mem_get_created_files] at hd
    obtain ⟨p, hp, dir, hdir, f, hf, rfl⟩ := hd
    rw [mem_glob] at hf
    obtain ⟨hfm, m, hrel, hmatch⟩ := hf
    have hfn : f.name = m := by simp [HostFile.name, hrel]
    have hmn : m = n := by rw [← hfn]; exact hname
    subst hmn
    refine ⟨(hasRecognizedExt_iff m).mpr ⟨p, hp, hmatch⟩, ?_⟩
    have hoc : dir = o ∨ dir = c := by simpa using hdir
    rcases hoc with rfl | rfl
    · exact Or.inl ⟨f, hfm, hrel⟩
    · exact Or.inr ⟨f, hfm, hrel⟩
  · rintro ⟨hext, hio⟩
    obtain ⟨p, hp, hmatch⟩ := (hasRecognizedExt_iff n).mp hext
    rcases hio with ⟨f, hf, hrel⟩ | ⟨f, hf, hrel⟩
    · refine ⟨⟨f.name, o.path ++ "/" ++ f.name, pathSuffix f.name, f.size⟩,
        mem_get_created_files.mpr
          ⟨p, hp, o, by simp, f, mem_glob.mpr ⟨hf, n, hrel, hmatch⟩, rfl⟩, ?_⟩
      simp [HostFile.name, hrel]
    · refine ⟨⟨f.name, c.path ++ "/" ++ f.name, pathSuffix f.name, f.size⟩,
        mem_get_created_files.mpr
          ⟨p, hp, c, by simp, f, mem_glob.mpr ⟨hf, n, hrel, hmatch⟩, rfl⟩, ?_⟩
      simp [HostFile.name, hrel]

/-- Globbing ignores files below the top level. -/
lemma glob_filter_topLevel (d : HostDir) (p : String) :
    glob ⟨d.path, d.files.filter HostFile.topLevel⟩ p = glob d p := by
  show (d.files.filter HostFile.topLevel).filter _ = d.files.filter _
  rw [List.filter_filter]
  apply List.filter_congr
  intro f _
  rcases hf : f.relPath with _ | ⟨n, _ | ⟨m, r⟩⟩ <;>
    simp [HostFile.topLevel, hf]

/-! ## Claim theorems -/

/-- C1: `_run` always returns a plain record of the fixed shape (the
return type of `run`, with no escaping exception by construction of the
handler at lines 178-185), and whenever the returned record has
`success = false` — image build failure, creation failure, timeout,
non-zero exit, or any unexpected orchestration exception — its `error`
field holds a non-empty string. -/
theorem run_failure_error_nonempty (tool : SecureCADExecutor) (code : String)
    (env : DockerEnv) (pre : Bool)
    (h : (run tool code env pre).1.success = false) :
    ∃ s, (run tool code env pre).1.error = some s ∧ s ≠ "" := by
  rcases run_shape tool code env pre with ⟨m, hm⟩ | hm | ⟨sc, hm⟩
  · exact ⟨"Failed to execute CAD code: " ++ m, by rw [hm]; rfl,
      append_ne_empty_left _ _ (by decide)⟩
  · exact ⟨"Execution timed out", by rw [hm]; rfl, by decide⟩
  · rw [hm] at h ⊢
    have hsc : (sc == 0) = false := h
    refine ⟨"Exit code: " ++ toString sc, ?_,
      append_ne_empty_left _ _ (by decide)⟩
    simp [doneRecord, hsc]

/-- Witness for C1: a timed-out call fails with a non-empty error. -/
theorem run_failure_error_nonempty_witness :
    ∃ s, (run tool0 "x = 1" envTimeout false).1.error = some s ∧ s ≠ "" :=
  run_failure_error_nonempty tool0 "x = 1" envTimeout false rfl

/-- C2: when the wait completes with exit status `sc`, the record's
`return_code` is `sc`, the record is successful with `error` absent
exactly when `sc = 0`, and a non-zero `sc` yields `success = false` with
an error string carrying the exit code. -/
theorem run_completed_exit_status (tool : SecureCADExecutor) (code : String)
    (env : DockerEnv) (pre : Bool) (sc : Nat)
    (hbuild : build_image_if_needed env = .ok ())
    (hcreate : env.createOk = true) (hput : env.putOk = true)
    (hstart : env.startOk = true) (hwait : env.waitOutcome = .done sc) :
    (run tool code env pre).1.return_code = (sc : Int) ∧
    ((run tool code env pre).1.success = true ∧
        (run tool code env pre).1.error = none ↔ sc = 0) ∧
    (sc ≠ 0 → (run tool code env pre).1.success = false ∧
      (run tool code env pre).1.error =
        some ("Exit code: " ++ toString sc)) := by
  obtain ⟨h1, -⟩ := run_done tool code env pre sc hbuild hcreate hput hstart hwait
  rw [h1]
  by_cases h : sc = 0 <;> simp [doneRecord, h]

/-- Witness for C2 at exit status 2. -/
theorem run_completed_exit_status_witness :
    (run tool0 "x = 1" (envDone 2) false).1.return_code = ((2 : Nat) : Int) ∧
    ((run tool0 "x = 1" (envDone 2) false).1.success = true ∧
        (run tool0 "x = 1" (envDone 2) false).1.error = none ↔ (2 : Nat) = 0) ∧
    ((2 : Nat) ≠ 0 →
      (run tool0 "x = 1" (envDone 2) false).1.success = false ∧
      (run tool0 "x = 1" (envDone 2) false).1.error =
        some ("Exit code: " ++ toString (2 : Nat))) :=
  run_completed_exit_status tool0 "x = 1" (envDone 2) false 2 rfl rfl rfl rfl rfl

/-- C3: in a successful result, `files_created` lists exactly the names
of the files present at scan time at the top level of the two output
directories with one of the five recognized extensions — no other
extension is ever listed, and every matching file currently present is
reported regardless of which call created it (the scan depends only on
the directory contents at scan time). -/
theorem run_files_created_exact (tool : SecureCADExecutor) (code : String)
    (env : DockerEnv) (pre : Bool)
    (hbuild : build_image_if_needed env = .ok ())
    (hcreate : env.createOk = true) (hput : env.putOk = true)
    (hstart : env.startOk = true) (hwait : env.waitOutcome = .done 0) :
    (run tool code env pre).1.success = true ∧
    ∀ n : String,
      (∃ d ∈ (run tool code env pre).1.files_created, d.name = n) ↔
        hasRecognizedExt n = true ∧
          ((∃ f ∈ env.outputFiles, f.relPath = [n]) ∨
            (∃ f ∈ env.cadFiles, f.relPath = [n])) := by
  obtain ⟨h1, -⟩ := run_done tool code env pre 0 hbuild hcreate hput hstart hwait
  rw [h1]
  refine ⟨rfl, fun n => ?_⟩
  simpa [doneRecord] using name_mem_created_files
    ⟨tool.output_dir, env.outputFiles⟩ ⟨tool.cad_dir, env.cadFiles⟩ n

/-- Witness for C3: `part.step`, present in the CAD directory, is
reported by a call that wrote nothing new. -/
theorem run_files_created_exact_witness :
    (run tool0 "c" envFiles false).1.success = true ∧
    ((∃ d ∈ (run tool0 "c" envFiles false).1.files_created,
        d.name = "part.step") ↔
      hasRecognizedExt "part.step" = true ∧
        ((∃ f ∈ envFiles.outputFiles, f.relPath = ["part.step"]) ∨
          (∃ f ∈ envFiles.cadFiles, f.relPath = ["part.step"]))) :=
  ⟨(run_files_created_exact tool0 "c" envFiles false rfl rfl rfl rfl rfl).1,
   (run_files_created_exact tool0 "c" envFiles false rfl rfl rfl rfl rfl).2
     "part.step"⟩

/-- C4: on timeout the call returns the timeout failure record, the
timeout branch itself stops and removes the container (already before
the `finally` cleanup), and afterwards no container with the fixed name
remains. -/
theorem run_timeout_teardown (tool : SecureCADExecutor) (code : String)
    (env : DockerEnv) (pre : Bool)
    (hbuild : build_image_if_needed env = .ok ())
    (hcreate : env.createOk = true) (hput : env.putOk = true)
    (hstart : env.startOk = true) (hwait : env.waitOutcome = .timeout) :
    (run tool code env pre).1.success = false ∧
    (run tool code env pre).1.error = some "Execution timed out" ∧
    ((run_body tool code env ⟨pre, []⟩).2).containerExists = false ∧
    ((run tool code env pre).2).containerExists = false := by
  obtain ⟨h1, h2, h3⟩ :=
    run_timed_out tool code env pre hbuild hcreate hput hstart hwait
  exact ⟨by rw [h1]; rfl, by rw [h1]; rfl, h2, by rw [h3]⟩

/-- Witness for C4 on the all-good-but-timeout oracle. -/
theorem run_timeout_teardown_witness :
    (run tool0 "while True: pass" envTimeout true).1.success = false ∧
    (run tool0 "while True: pass" envTimeout true).1.error =
      some "Execution timed out" ∧
    ((run_body tool0 "while True: pass" envTimeout ⟨true, []⟩).2).containerExists
      = false ∧
    ((run tool0 "while True: pass" envTimeout true).2).containerExists = false :=
  run_timeout_teardown tool0 "while True: pass" envTimeout true
    rfl rfl rfl rfl rfl

/-- C5: cleanup is unconditional and idempotent — after any call (any
oracle, any pre-existing container) no fixed-name container remains;
`_cleanup_container` on an absent container is a no-op (not an error);
cleanup composed with itself equals itself; and a call behaves
identically whether or not a fixed-name container pre-existed, because
every invocation removes any pre-existing instance before creating a new
one (no name collision). -/
theorem cleanup_unconditional_idempotent (tool : SecureCADExecutor) :
    (∀ code env pre, ((run tool code env pre).2).containerExists = false) ∧
    (∀ s : DockerState, s.containerExists = false → cleanup_container s = s) ∧
    (∀ s : DockerState,
      cleanup_container (cleanup_container s) = cleanup_container s) ∧
    (∀ code env pre, run tool code env pre = run tool code env false) := by
  refine ⟨fun code env pre => run_container_final tool code env pre,
    fun s hs => ?_, fun s => rfl,
    fun code env pre => run_pre_irrelevant tool code env pre⟩
  obtain ⟨ce, cfgs⟩ := s
  subst hs
  rfl

/-- Witness for C5: a call with a pre-existing container ends clean, and
cleanup of an absent container is the identity. -/
theorem cleanup_unconditional_idempotent_witness :
    ((run tool0 "c" envTimeout true).2).containerExists = false ∧
    cleanup_container ⟨false, []⟩ = (⟨false, []⟩ : DockerState) :=
  ⟨(cleanup_unconditional_idempotent tool0).1 "c" envTimeout true,
   (cleanup_unconditional_idempotent tool0).2.1 ⟨false, []⟩ rfl⟩

/-- C6: when the image is absent and the Dockerfile is missing, the call
fails fast: the result is the normalized failure record carrying the
file-not-found message, and no `containers.create` call is ever
attempted (empty creation trace). -/
theorem run_missing_dockerfile_fails_fast (tool : SecureCADExecutor)
    (code : String) (env : DockerEnv) (pre : Bool)
    (himg : env.imagePresent = false)
    (hdock : env.dockerfilePresent = false) :
    (run tool code env pre).1.success = false ∧
    (run tool code env pre).1.error =
      some ("Failed to execute CAD code: "
        ++ ("Dockerfile not found at " ++ dockerfile_path)) ∧
    ((run tool code env pre).2).createdConfigs = [] := by
  obtain ⟨ip, dp, bo, be, co, ce, po, pe, sok, se, w, lg, ofs, cfs⟩ := env
  subst himg
  subst hdock
  exact ⟨rfl, rfl, rfl⟩

/-- Witness for C6 on the missing-Dockerfile oracle. -/
theorem run_missing_dockerfile_fails_fast_witness :
    (run tool0 "c" envNoDockerfile false).1.success = false ∧
    (run tool0 "c" envNoDockerfile false).1.error =
      some ("Failed to execute CAD code: "
        ++ ("Dockerfile not found at " ++ dockerfile_path)) ∧
    ((run tool0 "c" envNoDockerfile false).2).createdConfigs = [] :=
  run_missing_dockerfile_fails_fast tool0 "c" envNoDockerfile false rfl rfl

/-- C7: every container the tool asks the daemon to create — for any
code and any oracle — uses the single fixed configuration: `mem_limit`
512m, `cpu_quota` 50000 (50% of one core), `network_mode` none, and
exactly the two output directories bind-mounted read-write at the fixed
in-container paths; nothing about it is configurable per call. -/
theorem created_container_fixed_restrictions (tool : SecureCADExecutor)
    (code : String) (env : DockerEnv) (pre : Bool) (cfg : ContainerConfig)
    (h : cfg ∈ ((run tool code env pre).2).createdConfigs) :
    cfg = containerConfig tool ∧
    cfg.mem_limit = "512m" ∧ cfg.cpu_quota = 50000 ∧
    cfg.network_mode = "none" ∧
    cfg.volumes = [(tool.output_dir, "/app/outputs/generated_code", "rw"),
                   (tool.cad_dir, "/app/outputs/cad_files", "rw")] := by
  rcases run_trace tool code env pre with ht | ht
  · rw [ht] at h
    exact absurd h (List.not_mem_nil _)
  · rw [ht] at h
    have hc : cfg = containerConfig tool := by simpa using h
    subst hc
    exact ⟨rfl, rfl, rfl, rfl, rfl⟩

/-- Witness for C7: the configuration created by a successful call has
the fixed restrictions. -/
theorem created_container_fixed_restrictions_witness :
    containerConfig tool0 = containerConfig tool0 ∧
    (containerConfig tool0).mem_limit = "512m" ∧
    (containerConfig tool0).cpu_quota = 50000 ∧
    (containerConfig tool0).network_mode = "none" ∧
    (containerConfig tool0).volumes =
      [(tool0.output_dir, "/app/outputs/generated_code", "rw"),
       (tool0.cad_dir, "/app/outputs/cad_files", "rw")] :=
  created_container_fixed_restrictions tool0 "c" (envDone 0) false
    (containerConfig tool0)
    (by
      have h : ((run tool0 "c" (envDone 0) false).2).createdConfigs =
          [containerConfig tool0] := rfl
      rw [h]
      exact List.mem_singleton.mpr rfl)

/-- C8: `_prepare_code` deterministically yields the fixed preamble
(with the defensive `build123d` import inside `try:` / `except
ImportError` and the output-directory `mkdir` lines) followed by the
wrapped user code: every line of the caller's text appears four-space
indented inside the `try:` block, and the fixed `except` handler prints
the message, prints the traceback, and exits with status 1. -/
theorem prepare_code_structure (user_code : String) :
    (∃ rest, prepare_code user_code =
      String.intercalate "\n" imports ++ "\n" ++ rest) ∧
    "try:" ∈ imports ∧
    "    from build123d import *" ∈ imports ∧
    "except ImportError as e:" ∈ imports ∧
    "    BUILD123D_AVAILABLE = False" ∈ imports ∧
    "output_dir.mkdir(parents=True, exist_ok=True)" ∈ imports ∧
    "cad_dir.mkdir(parents=True, exist_ok=True)" ∈ imports ∧
    (wrapped_code user_code).head? = some "try:" ∧
    "except Exception as e:" ∈ wrapped_code user_code ∧
    "    traceback.print_exc()" ∈ wrapped_code user_code ∧
    "    sys.exit(1)" ∈ wrapped_code user_code ∧
    prepare_code user_code = String.intercalate "\n" imports ++ "\n"
      ++ String.intercalate "\n" (wrapped_code user_code) ∧
    (∀ line ∈ splitLines user_code,
      ("    " ++ line) ∈ wrapped_code user_code) := by
  refine ⟨⟨_, rfl⟩, by simp [imports], by simp [imports], by simp [imports],
    by simp [imports], by simp [imports], by simp [imports], rfl,
    by simp [wrapped_code], by simp [wrapped_code], by simp [wrapped_code],
    rfl, ?_⟩
  intro line hline
  have hmem : ("    " ++ line) ∈
      (splitLines user_code).map (fun l => "    " ++ l) :=
    List.mem_map_of_mem _ hline
  exact List.mem_append_left _ (List.mem_append_right _ hmem)

/-- Witness for C8 on a two-line user script. -/
theorem prepare_code_structure_witness :
    ("    " ++ "y = 2") ∈ wrapped_code "x = 1\ny = 2" := by
  obtain ⟨-, -, -, -, -, -, -, -, -, -, -, -, hall⟩ :=
    prepare_code_structure "x = 1\ny = 2"
  exact hall "y = 2" (by decide)

/-- C9: the output-directory scan is non-recursive — the scan result is
unchanged when all files below the top level are removed (so a file in a
subdirectory, including the `step/` and `stl/` subdirectories that the
injected preamble's `mkdir` lines create, is never listed even with a
recognized extension), and every listed descriptor comes from a
top-level file. -/
theorem get_created_files_top_level_only (o c : HostDir) :
    get_created_files o c =
      get_created_files ⟨o.path, o.files.filter HostFile.topLevel⟩
        ⟨c.path, c.files.filter HostFile.topLevel⟩ ∧
    "step_dir.mkdir(parents=True, exist_ok=True)" ∈ imports ∧
    "stl_dir.mkdir(parents=True, exist_ok=True)" ∈ imports ∧
    (∀ d ∈ get_created_files o c,
      ∃ f, (f ∈ o.files ∨ f ∈ c.files) ∧ f.relPath = [d.name] ∧
        hasRecognizedExt d.name = true) := by
  refine ⟨?_, by simp [imports], by simp [imports], ?_⟩
  · simp [get_created_files, glob_filter_topLevel]
  · intro d hd
    rw [mem_get_created_files] at hd
    obtain ⟨p, hp, dir, hdir, f, hf, rfl⟩ := hd
    rw [mem_glob] at hf
    obtain ⟨hfm, m, hrel, hmatch⟩ := hf
    have hfn : f.name = m := by simp [HostFile.name, hrel]
    refine ⟨f, ?_, by simp [hrel, hfn], ?_⟩
    · have hoc : dir = o ∨ dir = c := by simpa using hdir
      rcases hoc with rfl | rfl
      · exact Or.inl hfm
      · exact Or.inr hfm
    · have hr : hasRecognizedExt m = true :=
        (hasRecognizedExt_iff m).mpr ⟨p, hp, hmatch⟩
      simpa [hfn] using hr

/-- Witness for C9: the top-level `part.step` descriptor of the sample
directory comes from a top-level file. -/
theorem get_created_files_top_level_only_witness :
    ∃ f, (f ∈ dirEmpty.files ∨ f ∈ dirSample.files) ∧
      f.relPath = [(⟨"part.step", "outputs/cad_files/part.step", ".step",
        10⟩ : FileDescriptor).name] ∧
      hasRecognizedExt
        (⟨"part.step", "outputs/cad_files/part.step", ".step",
          10⟩ : FileDescriptor).name = true :=
  (get_created_files_top_level_only dirEmpty dirSample).2.2.2
    ⟨"part.step", "outputs/cad_files/part.step", ".step", 10⟩ (by decide)

/-- C10: on the timeout path the record always carries
`files_created = []` (whatever the host directories hold) and the
sentinel `return_code = -1`, distinct from every container exit status,
and the outer-exception failure path (any `.error` of the body) yields
the same `files_created = []` and `return_code = -1`. -/
theorem run_timeout_files_and_sentinel (tool : SecureCADExecutor)
    (code : String) (env : DockerEnv) (pre : Bool)
    (hbuild : build_image_if_needed env = .ok ())
    (hcreate : env.createOk = true) (hput : env.putOk = true)
    (hstart : env.startOk = true) (hwait : env.waitOutcome = .timeout) :
    (run tool code env pre).1.files_created = [] ∧
    (run tool code env pre).1.return_code = -1 ∧
    (∀ sc : Nat, (run tool code env pre).1.return_code ≠ (sc : Int)) ∧
    (∀ code2 env2 pre2 m,
      (run_body tool code2 env2 ⟨pre2, []⟩).1 = Except.error m →
        (run tool code2 env2 pre2).1.files_created = [] ∧
        (run tool code2 env2 pre2).1.return_code = -1) := by
  obtain ⟨h1, -, -⟩ :=
    run_timed_out tool code env pre hbuild hcreate hput hstart hwait
  refine ⟨by rw [h1]; rfl, by rw [h1]; rfl, ?_, ?_⟩
  · intro sc
    rw [h1]
    show (-1 : Int) ≠ (sc : Int)
    omega
  · intro code2 env2 pre2 m hm
    simp only [run]
    rcases hp : run_body tool code2 env2 ⟨pre2, []⟩ with ⟨r, s⟩
    rw [hp] at hm
    simp only at hm
    subst hm
    simp

/-- Witness for C10: timeout on a host holding files still reports no
files, and a missing-Dockerfile failure carries the same sentinel. -/
theorem run_timeout_files_and_sentinel_witness :
    (run tool0 "c" { envFiles with waitOutcome := .timeout }
      false).1.files_created = [] ∧
    (run tool0 "c" envNoDockerfile false).1.return_code = -1 :=
  ⟨(run_timeout_files_and_sentinel tool0 "c"
      { envFiles with waitOutcome := .timeout } false
      rfl rfl rfl rfl rfl).1,
   ((run_timeout_files_and_sentinel tool0 "c"
      { envFiles with waitOutcome := .timeout } false
      rfl rfl rfl rfl rfl).2.2.2 "c" envNoDockerfile false _ rfl).2⟩

end CadAgent
